import Mathlib

/-!
Verification of the mmdeploy classification deploy adapter
(`mmdeploy/codebase/mmcls/deploy/classification.py`) and the deploy test
runner (`mmdeploy/codebase/base/runner.py`).

The Python code is embedded shallowly:

* an mmengine `Config` for the classification task is a structure holding the
  fields the code reads (`test_pipeline`, `data.test.pipeline`,
  `preprocess_cfg`, `model.head`);
* a pipeline stage `dict(type=..., ...)` is a structure with its `type` string
  and an optional `crop_size` key (the only other key the code looks at);
* Python runtime errors (IndexError on list indexing, AssertionError,
  ValueError from `max([])`, TypeError from `max(<int>)`) become an
  `Except PError` result;
* in-place mutation (`list.insert`/`list.pop` on a config's pipeline,
  `postprocess.topk = ...` on the stored model config) is made visible by
  returning the post-call state of the mutated object next to the result;
  `deepcopy` is value copy.
-/

/-- A pipeline stage: Python `dict(type=..., [crop_size=...])`.
`crop_size = none` models absence of the `crop_size` key. -/
structure Stage where
  type : String
  crop_size : Option Int
deriving DecidableEq, Repr

/-- The stage `dict(type='LoadImageFromFile')` inserted by
`process_model_config`. -/
def loadImageFromFile : Stage := { type := "LoadImageFromFile", crop_size := none }

/-- `cfg.data.test` node of the model config. -/
structure DataTestCfg where
  pipeline : List Stage
deriving DecidableEq, Repr

/-- `cfg.data` node of the model config. -/
structure DataCfg where
  test : DataTestCfg
deriving DecidableEq, Repr

/-- The value of a `topk` entry: either a sequence of integers or a plain
integer (what the entry becomes after `get_postprocess` rewrites it). -/
inductive TopkVal where
  | seq (l : List Int)
  | int (n : Int)
deriving DecidableEq, Repr

/-- `cfg.model.head`: an optional `topk` key plus the remaining entries,
which the code never touches, modelled as an opaque association list. -/
structure HeadCfg where
  topk : Option TopkVal
  rest : List (String × String)
deriving DecidableEq, Repr

/-- `cfg.model` node of the model config. -/
structure ModelNode where
  head : HeadCfg
deriving DecidableEq, Repr

/-- `cfg.preprocess_cfg`: an optional `type` key plus remaining entries. -/
structure PreprocessCfg where
  type : Option String
  rest : List (String × String)
deriving DecidableEq, Repr

/-- The slice of an mmcls model config read by the deploy adapter. -/
structure ModelConfig where
  test_pipeline : List Stage
  data : DataCfg
  preprocess_cfg : Option PreprocessCfg
  model : ModelNode
deriving DecidableEq, Repr

/-- `Config.deepcopy`: on pure values a copy is the value itself. -/
def ModelConfig.deepcopy (c : ModelConfig) : ModelConfig := c

/-- The `imgs` argument: `str` or `np.ndarray` (arrays identified opaquely). -/
inductive ImgsInput where
  | str (s : String)
  | arr (a : Nat)
deriving DecidableEq, Repr

/-- Python runtime errors surfaced by the embedded code. -/
inductive PError where
  | indexError
  | assertionError
  | valueError
  | typeError
deriving DecidableEq, Repr

/-- The pipeline adjustment at the top of `process_model_config`: reads
`cfg.test_pipeline[0]['type']` (IndexError on an empty pipeline, hence
`none`), then for a `str` input inserts `LoadImageFromFile` at position 0
when absent, and for an array input pops position 0 when it is
`LoadImageFromFile`. -/
def adjustPipeline (imgs : ImgsInput) (p : List Stage) : Option (List Stage) :=
  match p with
  | [] => none
  | s :: rest =>
    match imgs with
    | .str _ => some (if s.type ≠ "LoadImageFromFile" then loadImageFromFile :: (s :: rest) else s :: rest)
    | .arr _ => some (if s.type = "LoadImageFromFile" then rest else s :: rest)

/-- The `input_shape` validity check at the bottom of `process_model_config`:
when a shape is given it reads `cfg.test_pipeline[2]` (IndexError when the
pipeline is shorter) and, if that stage has a `crop_size` key, logs a warning
on a mismatch; the config is returned either way, tagged with whether the
warning fired. -/
def checkInputShape (cfg : ModelConfig) (input_shape : Option (List Int)) :
    Except PError (ModelConfig × Bool) :=
  match input_shape with
  | none => .ok (cfg, false)
  | some shape =>
    match cfg.test_pipeline[2]? with
    | none => .error .indexError
    | some st =>
      match st.crop_size with
      | none => .ok (cfg, false)
      | some c => .ok (cfg, if shape = [c, c] then false else true)

/-- `process_model_config(model_cfg, imgs, input_shape)`.

Returns the processed copy together with a flag recording whether the
`crop_size` warning was logged; errors are Python runtime errors (IndexError
from `cfg.test_pipeline[0]` or `cfg.test_pipeline[2]`). -/
def process_model_config (model_cfg : ModelConfig) (imgs : ImgsInput)
    (input_shape : Option (List Int)) : Except PError (ModelConfig × Bool) :=
  let cfg := model_cfg.deepcopy
  match adjustPipeline imgs cfg.test_pipeline with
  | none => .error .indexError
  | some p => checkInputShape { cfg with test_pipeline := p } input_shape

/-- The caller's view of a `process_model_config` call: the result, next to
the state of the `model_cfg` object after the call.  The source binds
`cfg = model_cfg.deepcopy()` and performs every insert/pop on `cfg`, so the
caller's object is left as passed. -/
def process_model_config_call (model_cfg : ModelConfig) (imgs : ImgsInput)
    (input_shape : Option (List Int)) :
    Except PError (ModelConfig × Bool) × ModelConfig :=
  (process_model_config model_cfg imgs input_shape, model_cfg)

/-- A pipeline starts with a `LoadImageFromFile` stage. -/
def startsWithLIFF (p : List Stage) : Prop :=
  match p with
  | [] => False
  | s :: _ => s.type = "LoadImageFromFile"

instance (p : List Stage) : Decidable (startsWithLIFF p) := by
  unfold startsWithLIFF
  match p with
  | [] => exact inferInstance
  | s :: _ => exact inferInstance

/-- The stored deploy config; the adapter only reads the input shape out of it
via `get_input_shape`, so that is the field we model. -/
structure DeployCfg where
  input_shape : Option (List Int)
deriving DecidableEq, Repr

/-- `mmdeploy.utils.config_utils.get_input_shape` (source not in this
excerpt): reads the input shape recorded in the deploy config. -/
def get_input_shape (d : DeployCfg) : Option (List Int) := d.input_shape

/-- The state of a `Classification` task object: the configs and device
stored by `BaseTask.__init__`. -/
structure ClassificationTask where
  model_cfg : ModelConfig
  deploy_cfg : DeployCfg
  device : String
deriving DecidableEq, Repr

/-- Python `max` on a list of integers: ValueError (`none`) on `[]`. -/
def listMax (l : List Int) : Option Int :=
  match l with
  | [] => none
  | x :: xs => some (xs.foldl max x)

namespace Classification

/-- `Classification.get_postprocess`.

`postprocess = self.model_cfg.model.head` aliases the stored config, so the
assignment `postprocess.topk = max(postprocess.topk)` mutates it; the result
is the returned head next to the post-call task state.  Errors: the assert
when `topk` is absent, ValueError for `max([])`, TypeError for `max(<int>)`. -/
def get_postprocess (t : ClassificationTask) :
    Except PError (HeadCfg × ClassificationTask) :=
  let postprocess := t.model_cfg.model.head
  match postprocess.topk with
  | none => .error .assertionError
  | some (.int _) => .error .typeError
  | some (.seq l) =>
    match listMax l with
    | none => .error .valueError
    | some m =>
      let head := { postprocess with topk := some (.int m) }
      .ok (head, { t with model_cfg := { t.model_cfg with model := { t.model_cfg.model with head := head } } })

/-- `Classification.get_preprocess`: process the stored model config with an
empty-string image and the deploy config's input shape, and return the
processed config's `data.test.pipeline`. -/
def get_preprocess (t : ClassificationTask) : Except PError (List Stage) :=
  let input_shape := get_input_shape t.deploy_cfg
  match process_model_config t.model_cfg (.str "") input_shape with
  | .error e => .error e
  | .ok (cfg, _) => .ok cfg.data.test.pipeline

end Classification

/-- The dict built by `create_input` before the pipeline runs:
`{'img_path': imgs}` for a string, `{'img': imgs}` otherwise. -/
inductive InitData where
  | imgPath (s : String)
  | img (a : Nat)
deriving DecidableEq, Repr

/-- `Classification.create_input`, parametric in the composed test pipeline
`pipe`, `BaseTask.get_tensor_from_input` (source not in this excerpt) as
`getTensor`, and the optional `data_preprocessor` `dp` (an external callable
applied to `[data]` and `False`, whose output is indexed at 0).

The first component of the returned pair is the final value of the `data`
variable: the preprocessor output (`Sum.inr`) when a preprocessor is given,
the pipeline output (`Sum.inl`) otherwise; indexing an empty preprocessor
output raises (`none`). -/
def create_input {α γ : Type} (pipe : InitData → α) (getTensor : α → γ)
    (dp : Option (List α → Bool → List γ)) (imgs : ImgsInput) :
    Option ((α ⊕ List γ) × γ) :=
  let d : InitData :=
    match imgs with
    | .str s => .imgPath s
    | .arr a => .img a
  let data := pipe d
  match dp with
  | some f =>
    match f [data] false with
    | [] => none
    | t :: ts => some (.inr (t :: ts), t)
  | none => some (.inl data, getTensor data)

/-- Arguments recorded by `build_classification_model` (source not in this
excerpt): the builder is opaque, so the backend model keeps what it was
built from. -/
structure BackendModelArgs where
  model_files : Option (List String)
  model_cfg : ModelConfig
  deploy_cfg : DeployCfg
  device : String
  data_preprocessor : PreprocessCfg
deriving DecidableEq, Repr

/-- A backend model: its build arguments plus the mutable `device` /
`training` state touched by `.to` and `.eval`. -/
structure BackendModel where
  args : BackendModelArgs
  device : String
  training : Bool
deriving DecidableEq, Repr

/-- `build_classification_model` (source not in this excerpt), modelled as an
opaque builder recording its arguments; a freshly built torch module starts
in training mode on the device it was built for. -/
def build_classification_model (model_files : Option (List String))
    (model_cfg : ModelConfig) (deploy_cfg : DeployCfg) (device : String)
    (data_preprocessor : PreprocessCfg) : BackendModel :=
  { args := { model_files, model_cfg, deploy_cfg, device, data_preprocessor }
    device := device
    training := true }

/-- `torch.nn.Module.to` on a backend model. -/
def BackendModel.to (m : BackendModel) (device : String) : BackendModel :=
  { m with device := device }

/-- `torch.nn.Module.eval` on a backend model. -/
def BackendModel.eval (m : BackendModel) : BackendModel :=
  { m with training := false }

/-- `dict.setdefault('type', 'mmcls.ClsDataPreprocessor')` on the
preprocessor config. -/
def PreprocessCfg.setdefaultType (p : PreprocessCfg) (v : String) : PreprocessCfg :=
  { p with type := match p.type with | none => some v | some w => some w }

/-- `Classification.init_backend_model`: deep-copy
`model_cfg.get('preprocess_cfg', {})`, default its `type`, build the backend
model, move it to the task's device and switch it to eval mode. -/
def Classification.init_backend_model (t : ClassificationTask)
    (model_files : Option (List String)) : BackendModel :=
  let data_preprocessor :=
    match t.model_cfg.preprocess_cfg with
    | some p => p
    | none => { type := none, rest := [] }
  let data_preprocessor := data_preprocessor.setdefaultType "mmcls.ClsDataPreprocessor"
  let model := build_classification_model model_files t.model_cfg t.deploy_cfg
    t.device data_preprocessor
  let model := model.to t.device
  model.eval

/-- A generic mmengine `BaseModel` as seen by `DeployTestRunner.wrap_model`:
the device / training state torch mutators touch, plus an opaque identity. -/
structure BaseModel where
  device : String
  training : Bool
  ident : Nat
deriving DecidableEq, Repr

/-- `torch.nn.Module.to` on a base model. -/
def BaseModel.to (m : BaseModel) (device : String) : BaseModel :=
  { m with device := device }

/-- The log level argument `Union[int, str]` of `build_logger`. -/
inductive LogLevel where
  | int (n : Int)
  | str (s : String)
deriving DecidableEq, Repr

/-- The call `super().build_logger(log_level, log_file, **kwargs)`:
`mmengine.runner.Runner.build_logger` is external, so the logger it returns is
modelled as the record of the arguments forwarded to it. -/
structure MMLoggerCall where
  log_level : LogLevel
  log_file : Option String
  kwargs : List (String × String)
deriving DecidableEq, Repr

/-- The state a `DeployTestRunner` stores at construction:
`self._log_file` and `self._device`. -/
structure DeployTestRunner where
  log_file : Option String
  device : String
deriving DecidableEq, Repr

/-- `DeployTestRunner.wrap_model`: ignores `model_wrapper_cfg` and returns
`model.to(self._device)`. -/
def DeployTestRunner.wrap_model (r : DeployTestRunner)
    (model_wrapper_cfg : Option (List (String × String))) (model : BaseModel) :
    BaseModel :=
  BaseModel.to model r.device

/-- `DeployTestRunner.build_logger`: substitute the stored `_log_file` when
the `log_file` argument is `None`, then forward everything to the parent
builder. -/
def DeployTestRunner.build_logger (r : DeployTestRunner) (log_level : LogLevel)
    (log_file : Option String) (kwargs : List (String × String)) : MMLoggerCall :=
  let lf := match log_file with | none => r.log_file | some f => some f
  { log_level := log_level, log_file := lf, kwargs := kwargs }

/-- An example non-`LoadImageFromFile` pipeline stage. -/
def resizeStage : Stage := { type := "Resize", crop_size := none }

/-- An example `CenterCrop` stage carrying a `crop_size` key. -/
def centerCropStage : Stage := { type := "CenterCrop", crop_size := some 224 }

/-- Example config whose test pipeline holds two consecutive
`LoadImageFromFile` stages. -/
def cfgTwoLIFF : ModelConfig :=
  { test_pipeline := [loadImageFromFile, loadImageFromFile]
    data := { test := { pipeline := [] } }
    preprocess_cfg := none
    model := { head := { topk := none, rest := [] } } }

/-- Example config with a single `Resize` stage and a `topk` head. -/
def cfgResize : ModelConfig :=
  { test_pipeline := [resizeStage]
    data := { test := { pipeline := [resizeStage] } }
    preprocess_cfg := none
    model := { head := { topk := some (.seq [1, 5]), rest := [] } } }

/-- Example config with a three-stage pipeline whose third stage has a
`crop_size`. -/
def cfgCrop : ModelConfig :=
  { test_pipeline := [loadImageFromFile, resizeStage, centerCropStage]
    data := { test := { pipeline := [] } }
    preprocess_cfg := none
    model := { head := { topk := some (.seq [1, 5]), rest := [] } } }

/-- Example classification task over `cfgResize`. -/
def exTask : ClassificationTask :=
  { model_cfg := cfgResize, deploy_cfg := { input_shape := none }, device := "cpu" }

/-- Example classification task over `cfgCrop` with an input shape. -/
def exCropTask : ClassificationTask :=
  { model_cfg := cfgCrop
    deploy_cfg := { input_shape := some [224, 224] }
    device := "cpu" }

/-- An example composed test pipeline for `create_input`, returning a numeric
tag telling the two dict shapes apart. -/
def exPipe : InitData → Nat :=
  fun d => match d with | .imgPath _ => 1 | .img _ => 2

/-- An example `get_tensor_from_input` for `create_input`. -/
def exTensor : Nat → Nat := fun n => n + 10

/-- An example data preprocessor for `create_input`. -/
def exDP : List Nat → Bool → List Nat := fun l _ => l

/-- The task state after the `topk` entry of the stored head config has been
assigned the value `v` in place. -/
def setTopk (t : ClassificationTask) (v : TopkVal) : ClassificationTask :=
  { t with model_cfg := { t.model_cfg with model := { t.model_cfg.model with
      head := { t.model_cfg.model.head with topk := some v } } } }

/-- Effect of the pipeline adjustment for a string image: insertion happens
exactly when the head is not `LoadImageFromFile`, and the result always
starts with it. -/
lemma adjustPipeline_str_spec (s : String) (p p' : List Stage)
    (h : adjustPipeline (.str s) p = some p') :
    (startsWithLIFF p → p' = p) ∧
    (¬ startsWithLIFF p → p' = loadImageFromFile :: p) ∧
    startsWithLIFF p' := by
  cases p with
  | nil => simp [adjustPipeline] at h
  | cons hd tl =>
    simp only [adjustPipeline, Option.some.injEq] at h
    by_cases hty : hd.type = "LoadImageFromFile"
    · rw [if_neg (not_not_intro hty)] at h
      subst h
      exact ⟨fun _ => rfl, fun hn => absurd hty hn, hty⟩
    · rw [if_pos hty] at h
      subst h
      exact ⟨fun hL => absurd hL hty, fun _ => rfl, rfl⟩

/-- Effect of the pipeline adjustment for an ndarray image: exactly one
leading `LoadImageFromFile` stage is popped when present, and the result can
only start with `LoadImageFromFile` if the second original stage was one. -/
lemma adjustPipeline_arr_spec (a : Nat) (p p' : List Stage)
    (h : adjustPipeline (.arr a) p = some p') :
    (startsWithLIFF p → p' = p.drop 1) ∧
    (¬ startsWithLIFF p → p' = p) ∧
    (¬ startsWithLIFF (p.drop 1) → ¬ startsWithLIFF p') := by
  cases p with
  | nil => simp [adjustPipeline] at h
  | cons hd tl =>
    simp only [adjustPipeline, Option.some.injEq] at h
    by_cases hty : hd.type = "LoadImageFromFile"
    · rw [if_pos hty] at h
      subst h
      exact ⟨fun _ => rfl, fun hn => absurd hty hn, fun hn => hn⟩
    · rw [if_neg hty] at h
      subst h
      exact ⟨fun hL => absurd hL hty, fun _ => rfl, fun _ hL => hty hL⟩

/-- The shape check never changes the config it returns. -/
lemma checkInputShape_ok_fst {cfg : ModelConfig} {sh : Option (List Int)}
    {r : ModelConfig × Bool} (h : checkInputShape cfg sh = .ok r) : r.1 = cfg := by
  unfold checkInputShape at h
  split at h
  · cases h; rfl
  · split at h
    · cases h
    · split at h
      · cases h; rfl
      · cases h; rfl

/-- With a shape given, the check succeeds exactly when the pipeline has at
least three stages. -/
lemma checkInputShape_ok_iff (cfg : ModelConfig) (sh : List Int) :
    (∃ r, checkInputShape cfg (some sh) = .ok r) ↔
      2 < cfg.test_pipeline.length := by
  unfold checkInputShape
  cases hG : cfg.test_pipeline[2]? with
  | none =>
    have hlen : cfg.test_pipeline.length ≤ 2 := List.getElem?_eq_none_iff.mp hG
    simp only [hG]
    constructor
    · rintro ⟨r, hr⟩; cases hr
    · intro hlt; omega
  | some st =>
    have hlen : 2 < cfg.test_pipeline.length := by
      rcases List.getElem?_eq_some.mp hG with ⟨hlt, -⟩
      exact hlt
    simp only [hG]
    refine ⟨fun _ => hlen, fun _ => ?_⟩
    cases hC : st.crop_size with
    | none => exact ⟨(cfg, false), rfl⟩
    | some c =>
      by_cases he : sh = [c, c]
      · exact ⟨(cfg, false), by simp [he]⟩
      · exact ⟨(cfg, true), by simp [he]⟩

/-- A `crop_size` mismatch only raises the warning flag. -/
lemma checkInputShape_mismatch {cfg : ModelConfig} {sh : List Int} {st : Stage}
    {c : Int} (hG : cfg.test_pipeline[2]? = some st) (hC : st.crop_size = some c)
    (hne : sh ≠ [c, c]) : checkInputShape cfg (some sh) = .ok (cfg, true) := by
  simp only [checkInputShape, hG, hC, if_neg hne]

/-- `process_model_config` is the shape check after the pipeline adjustment. -/
lemma process_model_config_eq_check {cfg : ModelConfig} {imgs : ImgsInput}
    {shape : Option (List Int)} {p : List Stage}
    (hA : adjustPipeline imgs cfg.test_pipeline = some p) :
    process_model_config cfg imgs shape =
      checkInputShape { cfg with test_pipeline := p } shape := by
  simp only [process_model_config, ModelConfig.deepcopy, hA]

/-- An empty test pipeline makes `process_model_config` raise IndexError. -/
lemma process_model_config_of_adjust_none {cfg : ModelConfig} {imgs : ImgsInput}
    {shape : Option (List Int)}
    (hA : adjustPipeline imgs cfg.test_pipeline = none) :
    process_model_config cfg imgs shape = .error .indexError := by
  simp only [process_model_config, ModelConfig.deepcopy, hA]

/-- A successful `process_model_config` returns the input config with its
`test_pipeline` replaced by the adjusted pipeline, all other fields kept. -/
lemma process_ok_destruct {cfg : ModelConfig} {imgs : ImgsInput}
    {shape : Option (List Int)} {cfg' : ModelConfig} {w : Bool}
    (h : process_model_config cfg imgs shape = .ok (cfg', w)) :
    ∃ p, adjustPipeline imgs cfg.test_pipeline = some p ∧
      cfg' = { cfg with test_pipeline := p } := by
  cases hA : adjustPipeline imgs cfg.test_pipeline with
  | none => rw [process_model_config_of_adjust_none hA] at h; cases h
  | some p =>
    rw [process_model_config_eq_check hA] at h
    exact ⟨p, rfl, checkInputShape_ok_fst h⟩

/-- C8: `process_model_config` performs all pipeline insertions and removals
on a deep copy, so the caller's `model_cfg` object (its `test_pipeline`
included) is identical before and after the call, for every input. -/
theorem process_model_config_preserves_argument (cfg : ModelConfig)
    (imgs : ImgsInput) (shape : Option (List Int)) :
    (process_model_config_call cfg imgs shape).2 = cfg := rfl

/-- C1 counterexample: on a config whose test pipeline is two consecutive
`LoadImageFromFile` stages, an ndarray input pops only the first one, so the
returned pipeline still starts with `LoadImageFromFile`, contradicting the
claim that it never does. -/
theorem process_model_config_ndarray_liff_cex :
    process_model_config cfgTwoLIFF (.arr 0) none =
      .ok ({ cfgTwoLIFF with test_pipeline := [loadImageFromFile] }, false) ∧
    startsWithLIFF [loadImageFromFile] := by
  constructor
  · rfl
  · rfl

/-- C1 (amended): on success, for a string image a `LoadImageFromFile` stage
is inserted at position 0 exactly when the first stage is not one, and the
returned pipeline always starts with `LoadImageFromFile`; for an ndarray
image the single leading `LoadImageFromFile` stage is removed when present
(the pipeline is unchanged otherwise), so the returned pipeline does not
start with `LoadImageFromFile` unless the original pipeline's second stage is
itself `LoadImageFromFile`. -/
theorem process_model_config_adjusts_pipeline (cfg : ModelConfig)
    (imgs : ImgsInput) (shape : Option (List Int)) (cfg' : ModelConfig) (w : Bool)
    (h : process_model_config cfg imgs shape = .ok (cfg', w)) :
    (∀ s, imgs = .str s →
      (startsWithLIFF cfg.test_pipeline → cfg'.test_pipeline = cfg.test_pipeline) ∧
      (¬ startsWithLIFF cfg.test_pipeline →
        cfg'.test_pipeline = loadImageFromFile :: cfg.test_pipeline) ∧
      startsWithLIFF cfg'.test_pipeline) ∧
    (∀ a, imgs = .arr a →
      (startsWithLIFF cfg.test_pipeline →
        cfg'.test_pipeline = cfg.test_pipeline.drop 1) ∧
      (¬ startsWithLIFF cfg.test_pipeline →
        cfg'.test_pipeline = cfg.test_pipeline) ∧
      (¬ startsWithLIFF (cfg.test_pipeline.drop 1) →
        ¬ startsWithLIFF cfg'.test_pipeline)) := by
  obtain ⟨p, hA, hc⟩ := process_ok_destruct h
  subst hc
  constructor
  · rintro s rfl
    exact adjustPipeline_str_spec s _ _ hA
  · rintro a rfl
    exact adjustPipeline_arr_spec a _ _ hA

/-- C1 witness: processing the single-`Resize` config with a string image
succeeds and the returned pipeline starts with `LoadImageFromFile`. -/
theorem process_model_config_adjusts_pipeline_witness :
    startsWithLIFF
      ({ cfgResize with test_pipeline := [loadImageFromFile, resizeStage] } :
        ModelConfig).test_pipeline :=
  ((process_model_config_adjusts_pipeline cfgResize (.str "img.png") none
      { cfgResize with test_pipeline := [loadImageFromFile, resizeStage] } false
      rfl).1 "img.png" rfl).2.2

/-- C10: with a non-`None` input shape, `process_model_config` succeeds
exactly when the adjusted pipeline has at least three stages (reading index 2
raises IndexError otherwise), and under that precondition the processed
config is always returned: a `crop_size` mismatch at stage 2 only sets the
warning flag, it never rejects the config. -/
theorem process_model_config_input_shape_safety (cfg : ModelConfig)
    (imgs : ImgsInput) (sh : List Int) :
    (∀ r, process_model_config cfg imgs (some sh) = .ok r →
      ∃ p, adjustPipeline imgs cfg.test_pipeline = some p ∧ 2 < p.length ∧
        r.1 = { cfg with test_pipeline := p }) ∧
    (∀ p, adjustPipeline imgs cfg.test_pipeline = some p → 2 < p.length →
      ∃ w, process_model_config cfg imgs (some sh) =
        .ok ({ cfg with test_pipeline := p }, w)) ∧
    (∀ p st c, adjustPipeline imgs cfg.test_pipeline = some p → p[2]? = some st →
      st.crop_size = some c → sh ≠ [c, c] →
      process_model_config cfg imgs (some sh) =
        .ok ({ cfg with test_pipeline := p }, true)) := by
  refine ⟨?_, ?_, ?_⟩
  · rintro ⟨r1, r2⟩ hr
    obtain ⟨p, hA, hc⟩ := process_ok_destruct hr
    refine ⟨p, hA, ?_, hc⟩
    rw [process_model_config_eq_check hA] at hr
    have h3 := (checkInputShape_ok_iff { cfg with test_pipeline := p } sh).mp
      ⟨(r1, r2), hr⟩
    exact h3
  · intro p hA hlen
    rw [process_model_config_eq_check hA]
    obtain ⟨⟨c1, w⟩, hok⟩ :=
      (checkInputShape_ok_iff { cfg with test_pipeline := p } sh).mpr hlen
    have hc1 : c1 = { cfg with test_pipeline := p } := checkInputShape_ok_fst hok
    exact ⟨w, by rw [hok, hc1]⟩
  · intro p st c hA hG hC hne
    rw [process_model_config_eq_check hA]
    exact checkInputShape_mismatch hG hC hne

/-- C10 witness: the three-stage crop config with a string image and the
mismatching shape `[100, 100]` is still returned, with the warning flag
set. -/
theorem process_model_config_input_shape_safety_witness :
    process_model_config cfgCrop (.str "x") (some [100, 100]) =
      .ok ({ cfgCrop with
              test_pipeline := [loadImageFromFile, resizeStage, centerCropStage] },
           true) :=
  (process_model_config_input_shape_safety cfgCrop (.str "x") [100, 100]).2.2
    [loadImageFromFile, resizeStage, centerCropStage] centerCropStage 224
    rfl rfl rfl (by decide)

/-- C7: `get_preprocess` processes the stored model config with the
empty-string image and the input shape read from the deploy config — so on
success the processed test pipeline starts with `LoadImageFromFile` — and the
returned value is the processed config's `data.test.pipeline` field. -/
theorem get_preprocess_spec (t : ClassificationTask) :
    Classification.get_preprocess t =
      (process_model_config t.model_cfg (.str "")
        (get_input_shape t.deploy_cfg)).map (fun r => r.1.data.test.pipeline) ∧
    (∀ r, process_model_config t.model_cfg (.str "")
        (get_input_shape t.deploy_cfg) = .ok r →
      startsWithLIFF r.1.test_pipeline) := by
  constructor
  · unfold Classification.get_preprocess
    cases hp : process_model_config t.model_cfg (.str "")
        (get_input_shape t.deploy_cfg) with
    | error e => simp [hp, Except.map]
    | ok r => simp [hp, Except.map]
  · rintro ⟨r1, r2⟩ hr
    obtain ⟨p, hA, hc⟩ := process_ok_destruct hr
    have := (adjustPipeline_str_spec "" _ _ hA).2.2
    rw [show ((r1, r2).1 : ModelConfig) = r1 from rfl, hc]
    exact this

/-- C7 witness: on the single-`Resize` example task the processed pipeline
starts with `LoadImageFromFile` and `get_preprocess` returns the processed
config's `data.test.pipeline`. -/
theorem get_preprocess_spec_witness :
    startsWithLIFF
      ({ cfgResize with test_pipeline := [loadImageFromFile, resizeStage] } :
        ModelConfig).test_pipeline ∧
    Classification.get_preprocess exTask = .ok [resizeStage] :=
  ⟨(get_preprocess_spec exTask).2
      ({ cfgResize with test_pipeline := [loadImageFromFile, resizeStage] },
        false) rfl,
   by rw [(get_preprocess_spec exTask).1]; rfl⟩

/-- C4: `get_postprocess` raises the assertion error exactly when `topk` is
absent from the head config, and when `topk` is a non-empty sequence it
returns the head config with `topk` replaced by the sequence's maximum. -/
theorem get_postprocess_spec (t : ClassificationTask) :
    (Classification.get_postprocess t = .error .assertionError ↔
      t.model_cfg.model.head.topk = none) ∧
    (∀ l m, t.model_cfg.model.head.topk = some (.seq l) → listMax l = some m →
      Classification.get_postprocess t =
        .ok ({ t.model_cfg.model.head with topk := some (.int m) },
          setTopk t (.int m))) := by
  constructor
  · cases ht : t.model_cfg.model.head.topk with
    | none => simp [Classification.get_postprocess, ht]
    | some v =>
      cases v with
      | int n => simp [Classification.get_postprocess, ht]
      | seq l =>
        cases hm : listMax l with
        | none => simp [Classification.get_postprocess, ht, hm]
        | some m => simp [Classification.get_postprocess, ht, hm]
  · intro l m hl hm
    simp [Classification.get_postprocess, hl, hm, setTopk]

/-- C4 witness: on the example task with `topk = [1, 5]` the call returns the
head with `topk = 5`, and the error-free run shows no assertion fired. -/
theorem get_postprocess_spec_witness :
    Classification.get_postprocess exTask =
      .ok ({ exTask.model_cfg.model.head with topk := some (.int 5) },
        setTopk exTask (.int 5)) :=
  (get_postprocess_spec exTask).2 [1, 5] 5 rfl rfl

/-- C9: `get_postprocess` mutates the stored model config in place: after a
successful call the stored `topk` is the integer maximum of its previous
sequence value, and a second call on the resulting task state fails (with the
TypeError from applying `max` to an integer), so the operation is not
idempotent. -/
theorem get_postprocess_mutates_state (t : ClassificationTask) (l : List Int)
    (m : Int) (h1 : t.model_cfg.model.head.topk = some (.seq l))
    (h2 : listMax l = some m) :
    Classification.get_postprocess t =
      .ok ({ t.model_cfg.model.head with topk := some (.int m) },
        setTopk t (.int m)) ∧
    (setTopk t (.int m)).model_cfg.model.head.topk = some (.int m) ∧
    Classification.get_postprocess (setTopk t (.int m)) = .error .typeError := by
  refine ⟨?_, rfl, ?_⟩
  · simp [Classification.get_postprocess, h1, h2, setTopk]
  · simp [Classification.get_postprocess, setTopk]

/-- C9 witness: on the example task with `topk = [1, 5]` the stored config
ends up with `topk = 5` and the second call raises the TypeError. -/
theorem get_postprocess_mutates_state_witness :
    Classification.get_postprocess exTask =
      .ok ({ exTask.model_cfg.model.head with topk := some (.int 5) },
        setTopk exTask (.int 5)) ∧
    (setTopk exTask (.int 5)).model_cfg.model.head.topk = some (.int 5) ∧
    Classification.get_postprocess (setTopk exTask (.int 5)) =
      .error .typeError :=
  get_postprocess_mutates_state exTask [1, 5] 5 rfl rfl

/-- C2: `create_input` applies the test pipeline to `\x7b'img_path': imgs\x7d` for
a string input and to `\x7b'img': imgs\x7d` otherwise; with a data preprocessor
the returned pair is the preprocessor's output on `[data]` with its element 0
as tensor, and without one it is the pipeline output with
`BaseTask.get_tensor_from_input` applied to it. -/
theorem create_input_dispatch {α γ : Type} (pipe : InitData → α) (g : α → γ)
    (s : String) (a : Nat) :
    create_input pipe g none (.str s) =
      some (.inl (pipe (.imgPath s)), g (pipe (.imgPath s))) ∧
    create_input pipe g none (.arr a) =
      some (.inl (pipe (.img a)), g (pipe (.img a))) ∧
    (∀ f t ts, f [pipe (.imgPath s)] false = t :: ts →
      create_input pipe g (some f) (.str s) = some (.inr (t :: ts), t)) ∧
    (∀ f t ts, f [pipe (.img a)] false = t :: ts →
      create_input pipe g (some f) (.arr a) = some (.inr (t :: ts), t)) := by
  refine ⟨rfl, rfl, ?_, ?_⟩ <;> intro f t ts hf <;> simp [create_input, hf]

/-- C2 witness: with the example pipeline, tensor extractor and identity
preprocessor, both branches produce the stated pairs. -/
theorem create_input_dispatch_witness :
    create_input exPipe exTensor (some exDP) (.str "img") =
      some (.inr [1], 1) ∧
    create_input exPipe exTensor none (.arr 0) = some (.inl 2, 12) :=
  ⟨(create_input_dispatch exPipe exTensor "img" 0).2.2.1 exDP 1 [] rfl,
   (create_input_dispatch exPipe exTensor "img" 0).2.1⟩

/-- C3: `wrap_model` returns the model moved to the device stored at runner
construction, for every wrapper configuration (including `None`): the result
does not depend on `model_wrapper_cfg` and is the unwrapped model with only
its device changed. -/
theorem wrap_model_spec (r : DeployTestRunner)
    (cfg : Option (List (String × String))) (m : BaseModel) :
    DeployTestRunner.wrap_model r cfg m = BaseModel.to m r.device ∧
    DeployTestRunner.wrap_model r cfg m = DeployTestRunner.wrap_model r none m ∧
    (DeployTestRunner.wrap_model r cfg m).device = r.device ∧
    (DeployTestRunner.wrap_model r cfg m).training = m.training ∧
    (DeployTestRunner.wrap_model r cfg m).ident = m.ident :=
  ⟨rfl, rfl, rfl, rfl, rfl⟩

/-- C5: `build_logger` substitutes the runner's stored log file exactly when
the `log_file` argument is `None`, keeps a non-`None` argument unchanged, and
forwards the log level and remaining keyword arguments to the parent builder
in both cases. -/
theorem build_logger_spec (r : DeployTestRunner) (lv : LogLevel)
    (kw : List (String × String)) (f : String) (lf : Option String) :
    (DeployTestRunner.build_logger r lv none kw).log_file = r.log_file ∧
    (DeployTestRunner.build_logger r lv (some f) kw).log_file = some f ∧
    (DeployTestRunner.build_logger r lv lf kw).log_level = lv ∧
    (DeployTestRunner.build_logger r lv lf kw).kwargs = kw := by
  refine ⟨rfl, rfl, ?_, ?_⟩ <;> cases lf <;> rfl

/-- C6: `init_backend_model` builds the backend model from the model config's
`preprocess_cfg` (empty when absent) with the `type` key defaulted to
`mmcls.ClsDataPreprocessor` only when absent, passing the stored configs and
device through unchanged, and returns the built model on the task's device in
eval mode. -/
theorem init_backend_model_spec (t : ClassificationTask)
    (mf : Option (List String)) :
    (Classification.init_backend_model t mf).training = false ∧
    (Classification.init_backend_model t mf).device = t.device ∧
    (Classification.init_backend_model t mf).args.model_files = mf ∧
    (Classification.init_backend_model t mf).args.model_cfg = t.model_cfg ∧
    (Classification.init_backend_model t mf).args.deploy_cfg = t.deploy_cfg ∧
    (Classification.init_backend_model t mf).args.device = t.device ∧
    (t.model_cfg.preprocess_cfg = none →
      (Classification.init_backend_model t mf).args.data_preprocessor =
        { type := some "mmcls.ClsDataPreprocessor", rest := [] }) ∧
    (∀ p, t.model_cfg.preprocess_cfg = some p → p.type = none →
      (Classification.init_backend_model t mf).args.data_preprocessor =
        { p with type := some "mmcls.ClsDataPreprocessor" }) ∧
    (∀ p v, t.model_cfg.preprocess_cfg = some p → p.type = some v →
      (Classification.init_backend_model t mf).args.data_preprocessor = p) := by
  refine ⟨rfl, rfl, ?_, ?_, ?_, ?_, ?_, ?_, ?_⟩
  · cases hp : t.model_cfg.preprocess_cfg <;>
      simp [Classification.init_backend_model, build_classification_model,
        BackendModel.to, BackendModel.eval, PreprocessCfg.setdefaultType, hp]
  · cases hp : t.model_cfg.preprocess_cfg <;>
      simp [Classification.init_backend_model, build_classification_model,
        BackendModel.to, BackendModel.eval, PreprocessCfg.setdefaultType, hp]
  · cases hp : t.model_cfg.preprocess_cfg <;>
      simp [Classification.init_backend_model, build_classification_model,
        BackendModel.to, BackendModel.eval, PreprocessCfg.setdefaultType, hp]
  · cases hp : t.model_cfg.preprocess_cfg <;>
      simp [Classification.init_backend_model, build_classification_model,
        BackendModel.to, BackendModel.eval, PreprocessCfg.setdefaultType, hp]
  · intro hp
    simp [Classification.init_backend_model, build_classification_model,
      BackendModel.to, BackendModel.eval, PreprocessCfg.setdefaultType, hp]
  · intro p hp hty
    simp [Classification.init_backend_model, build_classification_model,
      BackendModel.to, BackendModel.eval, PreprocessCfg.setdefaultType, hp, hty]
  · rintro ⟨pt, pr⟩ v hp hty
    have hpt : pt = some v := hty
    subst hpt
    simp [Classification.init_backend_model, build_classification_model,
      BackendModel.to, BackendModel.eval, PreprocessCfg.setdefaultType, hp]

/-- C6 witness: on the example task (no `preprocess_cfg`) the built model is
in eval mode on the task's device with the defaulted preprocessor type. -/
theorem init_backend_model_spec_witness :
    (Classification.init_backend_model exTask none).training = false ∧
    (Classification.init_backend_model exTask none).args.data_preprocessor =
      { type := some "mmcls.ClsDataPreprocessor", rest := [] } :=
  ⟨(init_backend_model_spec exTask none).1,
   (init_backend_model_spec exTask none).2.2.2.2.2.2.1 rfl⟩
